import Mathlib

/-!
Shallow embedding of the IBPM time-integration core and driver.

The embedding covers:
* `Euler.cc` — the one-stage semi-implicit Euler time stepper
  (constructor and `advance`);
* `ibpm.cc` — the driver `main`: model selection checks, base-flow
  loading, initial-condition loading with optional base-flow
  subtraction, up to the start of the integration loop;
* the external collaborators the core calls (`Geometry`,
  `ProjectionSolver.solve`, the model operators `S`, `Sinv`,
  `nonlinear`, `computeFlux`, `getLambda`, `State.load`), which are out
  of scope for the spec and are embedded as opaque-to-the-core function
  parameters packaged in records.

Doubles are embedded as rationals (exact arithmetic stands in for
floating point), scalar fields as an arbitrary commutative ring with a
rational scalar action (elementwise `*=`, `+=`, `+ constant` of the C++
`Scalar` class), boundary vectors and marker positions as arbitrary
types.
-/

namespace ibpm

/-- A snapshot of the simulated flow, as in `State.h`: circulation
`gamma`, vorticity `omega`, flux `q`, boundary force `f`, and the
simulation time. `Sc` is the scalar-field carrier, `Bv` the
boundary-vector carrier. -/
structure State (Sc Bv : Type) where
  gamma : Sc
  omega : Sc
  q : Sc
  f : Bv
  time : ℚ
  deriving DecidableEq

/-- The immersed-boundary geometry, embedded as its externally visible
behaviour: a stationarity flag, a motion law `positionAt` giving marker
positions as a function of time, the current marker positions `pos`,
and the boundary-velocity read-out `velocitiesOf` used by
`getVelocities`. `Ps` is the carrier for marker-position data. -/
structure Geometry (Ps Bv : Type) where
  isStationary : Bool
  positionAt : ℚ → Ps
  pos : Ps
  velocitiesOf : Ps → Bv

/-- Embedding of `Geometry::moveBodies(time)`: reposition the markers according to
the motion law at the given time. -/
def Geometry.moveBodies (g : Geometry Ps Bv) (time : ℚ) : Geometry Ps Bv :=
  { g with pos := g.positionAt time }

/-- Embedding of `Geometry::getVelocities()`: boundary velocities at the current
marker positions. -/
def Geometry.getVelocities (g : Geometry Ps Bv) : Bv :=
  g.velocitiesOf g.pos

/-- The `NavierStokesModel` interface as used by the time-integration
core: the linear-operator eigenvalues `getLambda`, the transforms `S`
and `Sinv`, the nonlinear term, the flux recomputation
`computeFlux : gamma -> q`, the owned geometry, and the
projection-solver factory `createSolver` (one solver per timestep
size), with `solve (a, b, gammaOld) = (gammaNew, fNew)`. -/
structure NavierStokesModel (Sc Bv Ps : Type) where
  getLambda : Sc
  S : Sc → Sc
  Sinv : Sc → Sc
  nonlinear : State Sc Bv → Sc
  computeFlux : Sc → Sc
  geometry : Geometry Ps Bv
  createSolver : ℚ → (Sc → Bv → Sc → Sc × Bv)

/-- The `Euler` stepper object: the `TimeStepper` base data (`_model`,
`_timestep`) plus `_linearTermEigenvalues` and `_solver`. -/
structure Euler (Sc Bv Ps : Type) where
  model : NavierStokesModel Sc Bv Ps
  timestep : ℚ
  linearTermEigenvalues : Sc
  solver : Sc → Bv → Sc → Sc × Bv

variable {Sc Bv Ps : Type}

/-- The constructor `Euler::Euler(model, timestep)` from `Euler.cc`:
`_linearTermEigenvalues` starts as a copy of `*getLambda()`, is scaled
by `timestep/2` and incremented by `1` elementwise, and
`_solver = createSolver(timestep)`. -/
def mkEuler [CommRing Sc] [Module ℚ Sc] (model : NavierStokesModel Sc Bv Ps)
    (timestep : ℚ) : Euler Sc Bv Ps :=
  let eig := model.getLambda
  let eig := (timestep / 2) • eig
  let eig := eig + 1
  { model := model
    timestep := timestep
    linearTermEigenvalues := eig
    solver := model.createSolver timestep }

/-- Embedding of `Euler::advance(State& x)` from `Euler.cc`, statement by statement:
move the bodies (to the current `x.time`) when the geometry is not
stationary, build the right-hand side `a`, read the boundary
velocities `b`, call the projection solver for the new circulation and
force, recompute the flux, and finally increment the time. The
returned first component carries the stepper with the (possibly moved)
geometry, mirroring the in-place mutation of the shared `Geometry`
object. -/
def Euler.advance [CommRing Sc] [Module ℚ Sc] (e : Euler Sc Bv Ps)
    (x : State Sc Bv) : Euler Sc Bv Ps × State Sc Bv :=
  let geom := e.model.geometry
  let geom := if geom.isStationary then geom else geom.moveBodies x.time
  let a := e.model.S x.gamma
  let a := a * e.linearTermEigenvalues
  let a := e.model.Sinv a
  let nl := e.model.nonlinear x
  let a := a + e.timestep • nl
  let b := geom.getVelocities
  let gf := e.solver a b x.gamma
  let q := e.model.computeFlux gf.1
  let x := { x with gamma := gf.1, f := gf.2, q := q, time := x.time + e.timestep }
  ({ e with model := { e.model with geometry := geom } }, x)

/-- Modelled from the spec: `RungeKutta2::advance` is declared in
`src/src/RungeKutta2.h` but its implementation file is not in the
repository's files. The stepper data follows the common construction
contract of spec section 4.3 (eigenvalue field and solver owned per
instance, fixed timestep). -/
structure RungeKutta2 (Sc Bv Ps : Type) where
  model : NavierStokesModel Sc Bv Ps
  timestep : ℚ
  linearTermEigenvalues : Sc
  solver : Sc → Bv → Sc → Sc × Bv

/-- Modelled from the spec: the common construction contract of spec
section 4.3 for `RungeKutta2` — precompute
`_linearTermEigenvalues = 1 + (h/2)*Lambda` and build a solver for the
same `h`. -/
def mkRungeKutta2 [CommRing Sc] [Module ℚ Sc] (model : NavierStokesModel Sc Bv Ps)
    (timestep : ℚ) : RungeKutta2 Sc Bv Ps :=
  { model := model
    timestep := timestep
    linearTermEigenvalues := 1 + (timestep / 2) • model.getLambda
    solver := model.createSolver timestep }

/-- Modelled from the spec: `RungeKutta2::advance` (implementation not
in the repository's files). Stage equations from the doc comment of
`RungeKutta2.h` (Peyret, alpha=1, beta=1/2) and spec section 4.3:
bodies are moved to the new time before boundary velocities are read;
stage one solves with RHS `(1+(h/2)L)w + h N(x)` and constraint
`b_{n+1}`; stage two solves with the trapezoidal average
`(1+(h/2)L)w + (h/2)(N(x)+N(x1))` and the same `b_{n+1}`; flux is
recomputed after each solve and the time is incremented by `h` once,
at the end. -/
def RungeKutta2.advance [CommRing Sc] [Module ℚ Sc] (r : RungeKutta2 Sc Bv Ps)
    (x : State Sc Bv) : RungeKutta2 Sc Bv Ps × State Sc Bv :=
  let geom := r.model.geometry
  let geom := if geom.isStationary then geom else geom.moveBodies (x.time + r.timestep)
  let b := geom.getVelocities
  let lin := r.model.Sinv (r.model.S x.gamma * r.linearTermEigenvalues)
  let n0 := r.model.nonlinear x
  let a1 := lin + r.timestep • n0
  let gf1 := r.solver a1 b x.gamma
  let x1 : State Sc Bv :=
    { gamma := gf1.1, omega := x.omega, q := r.model.computeFlux gf1.1,
      f := gf1.2, time := x.time + r.timestep }
  let n1 := r.model.nonlinear x1
  let a2 := lin + (r.timestep / 2) • (n0 + n1)
  let gf2 := r.solver a2 b x.gamma
  let q := r.model.computeFlux gf2.1
  ({ r with model := { r.model with geometry := geom } },
   { x with gamma := gf2.1, f := gf2.2, q := q, time := x.time + r.timestep })

/-- Iterate the Euler stepper: `n` successive `advance` calls threading
the stepper (its geometry may move) and the state. -/
def eulerSteps [CommRing Sc] [Module ℚ Sc] :
    ℕ → Euler Sc Bv Ps × State Sc Bv → Euler Sc Bv Ps × State Sc Bv
  | 0, p => p
  | n + 1, p =>
    let q := eulerSteps n p
    Euler.advance q.1 q.2

/-- Iterate the RK2 stepper: `n` successive `advance` calls. -/
def rk2Steps [CommRing Sc] [Module ℚ Sc] :
    ℕ → RungeKutta2 Sc Bv Ps × State Sc Bv → RungeKutta2 Sc Bv Ps × State Sc Bv
  | 0, p => p
  | n + 1, p =>
    let q := rk2Steps n p
    RungeKutta2.advance q.1 q.2

/-- The right-hand side `a` that `Euler::advance` hands to the
projection solver: `Sinv( S(gamma) ⊙ eig ) + h * nonlinear(x)`. -/
def eulerRHSa [CommRing Sc] [Module ℚ Sc] (e : Euler Sc Bv Ps)
    (x : State Sc Bv) : Sc :=
  e.model.Sinv (e.model.S x.gamma * e.linearTermEigenvalues) +
    e.timestep • e.model.nonlinear x

/-- The right-hand side `b` that `Euler::advance` hands to the
projection solver: the boundary velocities of the geometry after the
conditional `moveBodies(x.time)` call. -/
def eulerRHSb (e : Euler Sc Bv Ps) (x : State Sc Bv) : Bv :=
  (if e.model.geometry.isStationary then e.model.geometry
   else e.model.geometry.moveBodies x.time).getVelocities

/-- The model variants of `ibpm.cc` (`enum ModelType`). -/
inductive ModelType where
  | LINEAR
  | NONLINEAR
  | ADJOINT
  | LINEARPERIODIC
  | INVALID
  deriving DecidableEq

/-- Modelled from the spec: the `MakeLowercase` utility the driver
applies to name tokens (its implementation is not in the repository's
files): lowercase every character. Defined structurally on the
character list so that it evaluates by kernel reduction. -/
def makeLowercase (s : String) : String :=
  String.mk (s.data.map Char.toLower)

/-- Embedding of `str2model` from `ibpm.cc`: map the (lowercased) model name to its
`ModelType`, `INVALID` for an unrecognized name. -/
def str2model (modelName : String) : ModelType :=
  let m := makeLowercase modelName
  if m = "nonlinear" then ModelType.NONLINEAR
  else if m = "linear" then ModelType.LINEAR
  else if m = "adjoint" then ModelType.ADJOINT
  else if m = "linearperiodic" then ModelType.LINEARPERIODIC
  else ModelType.INVALID

/-- The command-line parameters of `ibpm.cc` that drive the control
flow embedded here; `inputIsValid` stands for
`parser.inputIsValid()`. -/
structure Config where
  inputIsValid : Bool
  helpFlag : Bool
  modelName : String
  baseFlow : String
  periodBaseFlowName : String
  integratorType : String
  icFile : String
  subtractBaseflow : Bool
  period : ℕ
  periodStart : ℤ

/-- Modelled from the spec: a freshly constructed `State` (the `State`
class constructor is not in the repository's files); spec section 7
describes the substituted initial condition as "a zero or default
initial condition", so the default-constructed state is all zero. -/
def State.fresh [Zero Sc] [Zero Bv] : State Sc Bv :=
  { gamma := 0, omega := 0, q := 0, f := 0, time := 0 }

/-- Modelled from the spec: `State::load(path)` (implementation not in
the repository's files); per spec section 6 it returns a success
boolean and never throws, and on failure the caller's state keeps its
previous value. `files` is the file-system oracle mapping a path to
the state it holds, or `none` when loading that path fails. -/
def loadState (files : String → Option (State Sc Bv)) (path : String)
    (x : State Sc Bv) : Bool × State Sc Bv :=
  match files path with
  | some y => (true, y)
  | none => (false, x)

/-- Modelled from the spec: the `sprintf`-style substitution of a time
index into the periodic-base-flow name pattern, embedded as an
injective pairing of pattern and index. -/
def pbfFileName (pattern : String) (k : ℤ) : String :=
  pattern ++ "@" ++ toString k

/-- The model-compatibility checks of `ibpm.cc` (the
`if ( modelType != NONLINEAR )` block): `some (code, msg)` when the
run exits with `exit(code)` after printing `msg`, `none` when it
continues. -/
def configCheck (modelType : ModelType) (baseFlow periodBaseFlowName : String) :
    Option (ℤ × String) :=
  if modelType ≠ ModelType.NONLINEAR then
    if modelType ≠ ModelType.LINEARPERIODIC ∧ baseFlow = "" then
      some (1, "ERROR: for linear or adjoint models, must specify a base flow")
    else if modelType ≠ ModelType.LINEARPERIODIC ∧ periodBaseFlowName ≠ "" then
      some (1, "WARNING: for linear or adjoint models, a periodic base flow is not needed")
    else if modelType = ModelType.LINEARPERIODIC ∧ periodBaseFlowName = "" then
      some (1, "ERROR: for linear periodic model, must specify a periodic base flow")
    else if modelType = ModelType.LINEARPERIODIC ∧ baseFlow ≠ "" then
      some (1, "WARNING: for linear periodic model, a single baseflow is not needed")
    else none
  else none

/-- The base-flow state `x00` after the model-construction `switch` of
`ibpm.cc`: `x00` starts default-constructed; for `LINEAR` and
`ADJOINT` the driver calls `x00.load(baseFlow)` without checking the
result; for `LINEARPERIODIC` each snapshot is loaded the same way and
`x00` becomes the first snapshot; the `INVALID` arm exits. -/
def buildBaseFlow [CommRing Sc] [Zero Bv]
    (files : String → Option (State Sc Bv)) (cfg : Config) :
    ModelType → Except (ℤ × String) (State Sc Bv)
  | ModelType.NONLINEAR => Except.ok State.fresh
  | ModelType.LINEAR => Except.ok (loadState files cfg.baseFlow State.fresh).2
  | ModelType.ADJOINT => Except.ok (loadState files cfg.baseFlow State.fresh).2
  | ModelType.LINEARPERIODIC =>
    let x0 := (List.range cfg.period).map fun i =>
      (loadState files (pbfFileName cfg.periodBaseFlowName ((i : ℤ) + cfg.periodStart))
        State.fresh).2
    Except.ok (x0.getD 0 State.fresh)
  | ModelType.INVALID => Except.error (1, "ERROR: must specify a valid modelType")

/-- Embedding of the dispatch in `GetSolver` from `ibpm.cc`, which exits with status 1 on an unrecognized
scheme name; this predicate holds exactly on the recognized
(lowercased) names. -/
def getSolverOK (solverType : String) : Bool :=
  let s := makeLowercase solverType
  s = "euler" || s = "ab2" || s = "rk2" || s = "rk3"

/-- How `main` of `ibpm.cc` leaves the setup phase: an `exit(code)`
with its diagnostic before the integration loop, or reaching the loop
with the messages of the initial-condition section, the initial state
`x`, and the base-flow state `x00`. -/
inductive Outcome (Sc Bv : Type) where
  | exited (code : ℤ) (msg : String)
  | loop (log : List String) (x : State Sc Bv) (x00 : State Sc Bv)
  deriving DecidableEq

/-- Holds (as `true`) exactly when the setup reached the integration loop. -/
def Outcome.reachesLoop : Outcome Sc Bv → Bool
  | Outcome.exited _ _ => false
  | Outcome.loop _ _ _ => true

/-- The setup phase of `main` from `ibpm.cc`, from argument validation
to the start of the integration loop: usage check, the model/base-flow
compatibility block, geometry load (`exit(-1)` on failure), model
construction with base-flow loading, the scheme-name dispatch of
`GetSolver` (`exit(1)` on an unrecognized scheme), and the
initial-condition section with its optional base-flow subtraction. -/
def mainSetup [CommRing Sc] [Module ℚ Sc] [Zero Bv]
    (files : String → Option (State Sc Bv)) (geomLoadOK : Bool)
    (cfg : Config) : Outcome Sc Bv :=
  let modelType := str2model cfg.modelName
  if ¬ cfg.inputIsValid ∨ modelType = ModelType.INVALID ∨ cfg.helpFlag then
    Outcome.exited 1 "usage"
  else
    match configCheck modelType cfg.baseFlow cfg.periodBaseFlowName with
    | some em => Outcome.exited em.1 em.2
    | none =>
      if ¬ geomLoadOK then Outcome.exited (-1) ""
      else
        match buildBaseFlow files cfg modelType with
        | Except.error em => Outcome.exited em.1 em.2
        | Except.ok x00 =>
          if ¬ getSolverOK cfg.integratorType then
            Outcome.exited 1 "ERROR: unrecognized solver"
          else
            let x : State Sc Bv := State.fresh
            let x := { x with omega := 0, f := 0, q := 0 }
            if cfg.icFile ≠ "" then
              let res := loadState files cfg.icFile x
              let log := if res.1 then [] else ["  (failed: using zero initial condition)"]
              let x := res.2
              if cfg.subtractBaseflow = true then
                let log := log ++
                  ["  Subtract initial condition by baseflow to form a linear initial perturbation"]
                if modelType ≠ ModelType.NONLINEAR then
                  let x := { x with q := x.q - x00.q, omega := x.omega - x00.omega, f := 0 }
                  Outcome.loop log x x00
                else
                  Outcome.exited 1 "Flag subbaseflow should be true only for linear cases"
              else Outcome.loop log x x00
            else Outcome.loop ["Using zero initial condition"] x x00

/-- A non-stationary test geometry over rational carriers: the motion
law puts the markers at the value of the time itself, and the
boundary-velocity read-out is the marker position. -/
def movingGeometry : Geometry ℚ ℚ :=
  { isStationary := false
    positionAt := fun t => t
    pos := 0
    velocitiesOf := fun p => p }

/-- A concrete model over rational carriers with the non-stationary
test geometry; its solver returns the boundary RHS `b` as both the new
circulation and the new force, making `b` observable in the advanced
state. -/
def movingModel : NavierStokesModel ℚ ℚ ℚ :=
  { getLambda := 0
    S := id
    Sinv := id
    nonlinear := fun _ => 0
    computeFlux := id
    geometry := movingGeometry
    createSolver := fun _ => fun _ b _ => (b, b) }

/-- The all-zero rational state at time 0. -/
def zeroState : State ℚ ℚ :=
  { gamma := 0, omega := 0, q := 0, f := 0, time := 0 }

/-- The all-zero rational state at time 1. -/
def oneState : State ℚ ℚ :=
  { gamma := 0, omega := 0, q := 0, f := 0, time := 1 }

/-- A file-system oracle on which every load fails. -/
def noFiles : String → Option (State ℚ ℚ) := fun _ => none

/-- A driver configuration: linear model, base-flow file named but (on
the `noFiles` oracle) failing to load, no initial-condition file. -/
def linearMissingBase : Config :=
  { inputIsValid := true, helpFlag := false, modelName := "linear",
    baseFlow := "base.bin", periodBaseFlowName := "", integratorType := "rk2",
    icFile := "", subtractBaseflow := false, period := 1, periodStart := 0 }

/-- A driver configuration: linear model with no base flow given. -/
def linearNoBase : Config :=
  { inputIsValid := true, helpFlag := false, modelName := "linear",
    baseFlow := "", periodBaseFlowName := "", integratorType := "rk2",
    icFile := "", subtractBaseflow := false, period := 1, periodStart := 0 }

/-- A driver configuration: nonlinear model with a periodic base flow
supplied. -/
def nonlinearWithPbf : Config :=
  { inputIsValid := true, helpFlag := false, modelName := "nonlinear",
    baseFlow := "", periodBaseFlowName := "pflow", integratorType := "rk2",
    icFile := "", subtractBaseflow := false, period := 1, periodStart := 0 }

/-- A driver configuration: nonlinear model, an initial-condition file
named, and the subbaseflow flag set. -/
def nonlinearSubIc : Config :=
  { inputIsValid := true, helpFlag := false, modelName := "nonlinear",
    baseFlow := "", periodBaseFlowName := "", integratorType := "rk2",
    icFile := "ic.bin", subtractBaseflow := true, period := 1, periodStart := 0 }

/-- A driver configuration: nonlinear model, the subbaseflow flag set,
but no initial-condition file. -/
def nonlinearSubNoIc : Config :=
  { inputIsValid := true, helpFlag := false, modelName := "nonlinear",
    baseFlow := "", periodBaseFlowName := "", integratorType := "rk2",
    icFile := "", subtractBaseflow := true, period := 1, periodStart := 0 }

/-- A driver configuration: nonlinear model, an initial-condition file
named, subbaseflow off. -/
def nonlinearIcNoSub : Config :=
  { inputIsValid := true, helpFlag := false, modelName := "nonlinear",
    baseFlow := "", periodBaseFlowName := "", integratorType := "rk2",
    icFile := "ic.bin", subtractBaseflow := false, period := 1, periodStart := 0 }

theorem advance_fst_timestep [CommRing Sc] [Module ℚ Sc] (e : Euler Sc Bv Ps)
    (x : State Sc Bv) : (Euler.advance e x).1.timestep = e.timestep := rfl

theorem advance_snd_time [CommRing Sc] [Module ℚ Sc] (e : Euler Sc Bv Ps)
    (x : State Sc Bv) : (Euler.advance e x).2.time = x.time + e.timestep := rfl

theorem rk2_advance_fst_timestep [CommRing Sc] [Module ℚ Sc] (r : RungeKutta2 Sc Bv Ps)
    (x : State Sc Bv) : (RungeKutta2.advance r x).1.timestep = r.timestep := rfl

theorem rk2_advance_snd_time [CommRing Sc] [Module ℚ Sc] (r : RungeKutta2 Sc Bv Ps)
    (x : State Sc Bv) : (RungeKutta2.advance r x).2.time = x.time + r.timestep := rfl

theorem eulerSteps_fst_timestep [CommRing Sc] [Module ℚ Sc] (n : ℕ)
    (p : Euler Sc Bv Ps × State Sc Bv) :
    (eulerSteps n p).1.timestep = p.1.timestep := by
  induction n with
  | zero => rfl
  | succ n ih => simpa [eulerSteps, advance_fst_timestep] using ih

theorem eulerSteps_snd_time [CommRing Sc] [Module ℚ Sc] (n : ℕ)
    (p : Euler Sc Bv Ps × State Sc Bv) :
    (eulerSteps n p).2.time = p.2.time + n * p.1.timestep := by
  induction n with
  | zero => simp [eulerSteps]
  | succ n ih =>
    have ht := eulerSteps_fst_timestep n p
    show (Euler.advance (eulerSteps n p).1 (eulerSteps n p).2).2.time = _
    rw [advance_snd_time, ih, ht]
    push_cast
    ring

theorem rk2Steps_fst_timestep [CommRing Sc] [Module ℚ Sc] (n : ℕ)
    (p : RungeKutta2 Sc Bv Ps × State Sc Bv) :
    (rk2Steps n p).1.timestep = p.1.timestep := by
  induction n with
  | zero => rfl
  | succ n ih => simpa [rk2Steps, rk2_advance_fst_timestep] using ih

theorem rk2Steps_snd_time [CommRing Sc] [Module ℚ Sc] (n : ℕ)
    (p : RungeKutta2 Sc Bv Ps × State Sc Bv) :
    (rk2Steps n p).2.time = p.2.time + n * p.1.timestep := by
  induction n with
  | zero => simp [rk2Steps]
  | succ n ih =>
    have ht := rk2Steps_fst_timestep n p
    show (RungeKutta2.advance (rk2Steps n p).1 (rk2Steps n p).2).2.time = _
    rw [rk2_advance_snd_time, ih, ht]
    push_cast
    ring

/-- C4: for every state `x` (and whichever solver the stepper holds),
`Euler::advance` computes `a = Sinv( S(gamma) ⊙ eig ) + h * nonlinear(x)`
and `b` = the boundary velocities, makes exactly one solve call — the
advanced state is determined by the solver's value at the single
argument triple `(a, b, x.gamma)` — whose result gives the new
circulation and force, recomputes the flux from the new circulation,
and advances the time by `h`. -/
theorem euler_advance_formula [CommRing Sc] [Module ℚ Sc]
    (e : Euler Sc Bv Ps) (x : State Sc Bv) :
    ∀ sol : Sc → Bv → Sc → Sc × Bv,
      (Euler.advance { e with solver := sol } x).2 =
        { gamma := (sol (eulerRHSa e x) (eulerRHSb e x) x.gamma).1
          omega := x.omega
          q := e.model.computeFlux (sol (eulerRHSa e x) (eulerRHSb e x) x.gamma).1
          f := (sol (eulerRHSa e x) (eulerRHSb e x) x.gamma).2
          time := x.time + e.timestep } := by
  intro sol
  rfl

/-- C5: constructing an Euler stepper precomputes
`_linearTermEigenvalues = 1 + (h/2) * Lambda` with `Lambda = getLambda()`
and instantiates the projection solver for the same `h`; an `advance`
call leaves the eigenvalue field, the timestep and the solver of the
stepper unchanged. -/
theorem euler_construction_precomputes [CommRing Sc] [Module ℚ Sc]
    (m : NavierStokesModel Sc Bv Ps) (h : ℚ) (x : State Sc Bv) :
    (mkEuler m h).linearTermEigenvalues = 1 + (h / 2) • m.getLambda ∧
    (mkEuler m h).solver = m.createSolver h ∧
    (mkEuler m h).timestep = h ∧
    (Euler.advance (mkEuler m h) x).1.linearTermEigenvalues =
      (mkEuler m h).linearTermEigenvalues ∧
    (Euler.advance (mkEuler m h) x).1.timestep = h ∧
    (Euler.advance (mkEuler m h) x).1.solver = (mkEuler m h).solver := by
  refine ⟨?_, rfl, rfl, rfl, rfl, rfl⟩
  show (h / 2) • m.getLambda + 1 = 1 + (h / 2) • m.getLambda
  exact add_comm _ _

/-- C6: `advance` increments `state.time` by exactly `h` once per call,
and `n` calls from time `t0` leave the time at `t0 + n * h`, for the
Euler stepper (from the source) and the RK2 stepper (modelled from the
spec) alike. -/
theorem advance_time_increment [CommRing Sc] [Module ℚ Sc]
    (e : Euler Sc Bv Ps) (r : RungeKutta2 Sc Bv Ps)
    (x y : State Sc Bv) (n : ℕ) :
    (Euler.advance e x).2.time = x.time + e.timestep ∧
    (eulerSteps n (e, x)).2.time = x.time + n * e.timestep ∧
    (RungeKutta2.advance r y).2.time = y.time + r.timestep ∧
    (rk2Steps n (r, y)).2.time = y.time + n * r.timestep :=
  ⟨advance_snd_time e x, eulerSteps_snd_time n (e, x),
   rk2_advance_snd_time r y, rk2Steps_snd_time n (r, y)⟩

/-- C7: after an `advance` call the state's flux `q` equals
`computeFlux` of the state's circulation `gamma` — the flux is
recomputed after the solve updates the circulation, so it is never
stale. -/
theorem euler_flux_consistency [CommRing Sc] [Module ℚ Sc]
    (e : Euler Sc Bv Ps) (x : State Sc Bv) :
    (Euler.advance e x).2.q = e.model.computeFlux (Euler.advance e x).2.gamma := rfl

/-- C1 counterexample: with the identity motion law, `h = 1` and a
solver that returns the boundary RHS `b` as the new circulation,
advancing from time 0 leaves the bodies at the position of the *old*
time (0), not at the position of the new time `x.time + h` (1), and the
boundary-velocity RHS fed to the solver is the one of the old time, so
the claim fails at this input. -/
theorem euler_moveBodies_new_time_cex :
    (Euler.advance (mkEuler movingModel 1) zeroState).1.model.geometry.pos ≠
      movingModel.geometry.positionAt (zeroState.time + 1) ∧
    (Euler.advance (mkEuler movingModel 1) zeroState).2.gamma ≠
      movingModel.geometry.velocitiesOf
        (movingModel.geometry.positionAt (zeroState.time + 1)) := by
  constructor <;>
    simp [Euler.advance, mkEuler, movingModel, movingGeometry, zeroState,
      Geometry.moveBodies, Geometry.getVelocities]

/-- C1 (amended): when the geometry is non-stationary, `advance` moves
the bodies to the *current* time `x.time` (the time at the start of the
step) before the boundary-velocity RHS `b` is evaluated, so `b`
corresponds to the state at the start of the step; the solve receives
exactly that `b`. -/
theorem euler_moveBodies_current_time [CommRing Sc] [Module ℚ Sc]
    (e : Euler Sc Bv Ps) (x : State Sc Bv)
    (hm : e.model.geometry.isStationary = false) :
    (Euler.advance e x).1.model.geometry = e.model.geometry.moveBodies x.time ∧
    (Euler.advance e x).2.gamma =
      (e.solver (eulerRHSa e x)
        ((e.model.geometry.moveBodies x.time).getVelocities) x.gamma).1 ∧
    (Euler.advance e x).2.f =
      (e.solver (eulerRHSa e x)
        ((e.model.geometry.moveBodies x.time).getVelocities) x.gamma).2 := by
  refine ⟨?_, ?_, ?_⟩ <;> simp [Euler.advance, eulerRHSa, hm]

/-- C1 witness: the amended statement instantiated at the concrete
moving model. -/
theorem euler_moveBodies_current_time_witness :
    (mkEuler movingModel 1).model.geometry.isStationary = false ∧
    (Euler.advance (mkEuler movingModel 1) zeroState).1.model.geometry =
      (mkEuler movingModel 1).model.geometry.moveBodies zeroState.time :=
  ⟨rfl, (euler_moveBodies_current_time (mkEuler movingModel 1) zeroState rfl).1⟩

/-- C3 counterexample: `advance` on a non-stationary geometry does
mutate the geometry: from time 1 with the identity motion law the
marker positions change from 0 to 1. -/
theorem advance_mutates_geometry_cex :
    (Euler.advance (mkEuler movingModel 1) oneState).1.model.geometry.pos ≠
      movingModel.geometry.pos := by
  simp [Euler.advance, mkEuler, movingModel, movingGeometry, oneState,
    Geometry.moveBodies]

/-- C3 (amended): `advance` itself repositions the immersed-boundary
marker points when the geometry is non-stationary (calling
`moveBodies(x.time)`), and only when the geometry is stationary is the
geometry left untouched. -/
theorem advance_geometry_effect [CommRing Sc] [Module ℚ Sc]
    (e : Euler Sc Bv Ps) (x : State Sc Bv) :
    (Euler.advance e x).1.model.geometry =
      (if e.model.geometry.isStationary then e.model.geometry
       else e.model.geometry.moveBodies x.time) := rfl

/-- C2: with the linear model and a required base-flow file that fails
to load, the driver does not exit: the boolean result of the load is
ignored and setup reaches the integration loop with the default
(all-zero) base-flow state. -/
theorem linear_missing_baseflow_reaches_loop :
    noFiles linearMissingBase.baseFlow = none ∧
    str2model linearMissingBase.modelName = ModelType.LINEAR ∧
    mainSetup noFiles true linearMissingBase =
      Outcome.loop ["Using zero initial condition"] State.fresh State.fresh := by
  refine ⟨rfl, by decide, by decide⟩

theorem configCheck_rejects (mt : ModelType) (bf pbf : String)
    (hbad :
      ((mt = ModelType.LINEAR ∨ mt = ModelType.ADJOINT) ∧ (bf = "" ∨ pbf ≠ "")) ∨
      (mt = ModelType.LINEARPERIODIC ∧ (pbf = "" ∨ bf ≠ ""))) :
    ∃ msg, configCheck mt bf pbf = some (1, msg) := by
  rcases hbad with ⟨hmt | hmt, hc | hc⟩ | ⟨hmt, hc | hc⟩ <;> subst hmt <;>
    by_cases hbf : bf = "" <;> by_cases hpbf : pbf = "" <;>
      simp_all [configCheck]

/-- C8 counterexample: the Nonlinear model is a non-periodic variant,
yet a configuration supplying a periodic base flow with it is not
rejected — the compatibility block is skipped entirely and setup
silently reaches the integration loop. -/
theorem nonlinear_pbf_no_exit_cex :
    nonlinearWithPbf.periodBaseFlowName ≠ "" ∧
    str2model nonlinearWithPbf.modelName = ModelType.NONLINEAR ∧
    (mainSetup noFiles true nonlinearWithPbf).reachesLoop = true := by
  refine ⟨by decide, by decide, by decide⟩

/-- C8 (amended): for the linear or adjoint model with a missing base
flow or with a periodic base flow supplied, and for the linearperiodic
model with a missing periodic base flow or with a single base flow
supplied, setup exits with status 1 and a diagnostic before any
timestepping; for the nonlinear model no base-flow compatibility check
is made (a supplied periodic base flow is silently ignored). -/
theorem config_error_exits [CommRing Sc] [Module ℚ Sc] [Zero Bv]
    (files : String → Option (State Sc Bv)) (geomLoadOK : Bool) (cfg : Config)
    (hv : cfg.inputIsValid = true) (hh : cfg.helpFlag = false)
    (hbad :
      ((str2model cfg.modelName = ModelType.LINEAR ∨
          str2model cfg.modelName = ModelType.ADJOINT) ∧
        (cfg.baseFlow = "" ∨ cfg.periodBaseFlowName ≠ "")) ∨
      (str2model cfg.modelName = ModelType.LINEARPERIODIC ∧
        (cfg.periodBaseFlowName = "" ∨ cfg.baseFlow ≠ ""))) :
    ∃ msg, mainSetup files geomLoadOK cfg = Outcome.exited 1 msg := by
  have hinv : ¬ str2model cfg.modelName = ModelType.INVALID := by
    rcases hbad with ⟨hmt | hmt, _⟩ | ⟨hmt, _⟩ <;> simp [hmt]
  obtain ⟨msg, hcc⟩ :=
    configCheck_rejects (str2model cfg.modelName) cfg.baseFlow cfg.periodBaseFlowName hbad
  exact ⟨msg, by simp [mainSetup, hv, hh, hinv, hcc]⟩

/-- C8 witness: the amended statement instantiated at the linear model
with no base flow. -/
theorem config_error_exits_witness :
    linearNoBase.inputIsValid = true ∧ linearNoBase.helpFlag = false ∧
    linearNoBase.baseFlow = "" ∧
    (∃ msg, mainSetup noFiles true linearNoBase = Outcome.exited 1 msg) :=
  ⟨rfl, rfl, rfl,
    config_error_exits noFiles true linearNoBase rfl rfl
      (Or.inl ⟨Or.inl (by decide), Or.inl rfl⟩)⟩

/-- C9 counterexample: an initial-condition load failure does not
always leave the run alive with a zero state: with the subbaseflow
flag set and the nonlinear model, the initial-condition load fails and
the run is aborted with `exit(1)`. -/
theorem ic_failure_aborts_cex :
    noFiles nonlinearSubIc.icFile = none ∧
    nonlinearSubIc.icFile ≠ "" ∧
    mainSetup noFiles true nonlinearSubIc =
      Outcome.exited 1 "Flag subbaseflow should be true only for linear cases" := by
  refine ⟨rfl, by decide, by decide⟩

/-- C9 (amended): if loading the initial-condition file fails and the
subbaseflow flag is not set, the run is not aborted: the failure is
reported ("failed: using zero initial condition") and the loop is
entered with the all-zero initial state in place of the file
contents. -/
theorem ic_failure_zero_fallback [CommRing Sc] [Module ℚ Sc] [Zero Bv]
    (files : String → Option (State Sc Bv)) (cfg : Config)
    (hv : cfg.inputIsValid = true) (hh : cfg.helpFlag = false)
    (hinv : ¬ str2model cfg.modelName = ModelType.INVALID)
    (hcc : configCheck (str2model cfg.modelName) cfg.baseFlow cfg.periodBaseFlowName = none)
    (hsol : getSolverOK cfg.integratorType = true)
    (hic : cfg.icFile ≠ "")
    (hfail : files cfg.icFile = none)
    (hsub : cfg.subtractBaseflow = false) :
    ∃ x00, mainSetup files true cfg =
      Outcome.loop ["  (failed: using zero initial condition)"] State.fresh x00 := by
  obtain ⟨x00, hbb⟩ :
      ∃ x00, buildBaseFlow files cfg (str2model cfg.modelName) = Except.ok x00 := by
    cases hmt : str2model cfg.modelName <;> simp [buildBaseFlow]
    exact absurd hmt hinv
  refine ⟨x00, ?_⟩
  simp [mainSetup, hv, hh, hinv, hcc, hbb, hsol, hic, hsub, loadState, hfail, State.fresh]

/-- C9 witness: the amended statement instantiated at the nonlinear
model with a missing initial-condition file and subbaseflow off. -/
theorem ic_failure_zero_fallback_witness :
    noFiles nonlinearIcNoSub.icFile = none ∧
    nonlinearIcNoSub.subtractBaseflow = false ∧
    (∃ x00, mainSetup noFiles true nonlinearIcNoSub =
      Outcome.loop ["  (failed: using zero initial condition)"] State.fresh x00) :=
  ⟨rfl, rfl,
    ic_failure_zero_fallback noFiles nonlinearIcNoSub rfl rfl (by decide)
      (by decide) (by decide) (by decide) rfl rfl⟩

/-- C10 counterexample: the subbaseflow flag set with the nonlinear
model does not by itself cause an exit: with no initial-condition file
the flag is never examined and setup reaches the loop. -/
theorem subbaseflow_nonlinear_no_ic_cex :
    nonlinearSubNoIc.subtractBaseflow = true ∧
    str2model nonlinearSubNoIc.modelName = ModelType.NONLINEAR ∧
    (mainSetup noFiles true nonlinearSubNoIc).reachesLoop = true := by
  refine ⟨rfl, by decide, by decide⟩

/-- C10 (amended): if an initial-condition file is given, the
subbaseflow flag is true and the Nonlinear model is selected, the
driver prints an error and exits with status 1 before the timestepping
loop; base-flow subtraction (and zeroing of `f`) happens only for the
non-nonlinear variants. -/
theorem subbaseflow_nonlinear_exits [CommRing Sc] [Module ℚ Sc] [Zero Bv]
    (files : String → Option (State Sc Bv)) (cfg : Config)
    (hv : cfg.inputIsValid = true) (hh : cfg.helpFlag = false)
    (hmt : str2model cfg.modelName = ModelType.NONLINEAR)
    (hsol : getSolverOK cfg.integratorType = true)
    (hic : cfg.icFile ≠ "")
    (hsub : cfg.subtractBaseflow = true) :
    mainSetup files true cfg =
      Outcome.exited 1 "Flag subbaseflow should be true only for linear cases" := by
  simp [mainSetup, hv, hh, hmt, configCheck, buildBaseFlow, hsol, hic, hsub]

/-- C10 witness: the amended statement instantiated at the nonlinear
model with an initial-condition file and the subbaseflow flag set. -/
theorem subbaseflow_nonlinear_exits_witness :
    nonlinearSubIc.subtractBaseflow = true ∧
    mainSetup noFiles true nonlinearSubIc =
      Outcome.exited 1 "Flag subbaseflow should be true only for linear cases" :=
  ⟨rfl,
    subbaseflow_nonlinear_exits noFiles nonlinearSubIc rfl rfl (by decide)
      (by decide) (by decide) rfl⟩

end ibpm
